import Mathlib

/-!
A shallow embedding of the storefront backend (FastAPI + SQLAlchemy routers
for categories, products, reviews and cart) as pure Lean functions over an
explicit database state, together with theorems checking the specification's
claims against that embedding.

Conventions of the embedding:
* Each database table is a `List` of rows in storage order; SQLAlchemy's
  `scalars(...).first()` becomes `List.find?`, `.all()` becomes `List.filter`,
  and an SQL `UPDATE ... WHERE id = x` becomes a `List.map` that rewrites the
  matching rows.
* Monetary amounts (`Decimal` with two fractional digits in the source) are
  represented exactly as integer cents (`Int`); the derived `rating` column
  (a float computed as an SQL `AVG`) is represented as `ℚ`.
* A handler returns `Except ApiError α`; `.error` corresponds to an
  `HTTPException` (or, for `.internal`, an uncaught Python exception such as
  an `AttributeError` on `None`), in which case the per-request session rolls
  back and no state change is persisted.
* `create_review` performs two separate `commit()` calls in the source, so its
  embedding returns the list of successively committed states, making the
  commit granularity observable.
* PostgreSQL full-text search (`websearch_to_tsquery`, `@@`, `ts_rank_cd`) is
  external to the repository; the listing handler is parameterized by a match
  predicate and a rank function supplied by the store.
-/

/-- Error taxonomy of the handlers: HTTP 400, 404, 403, and an uncaught
exception escaping the handler (HTTP 500). -/
inductive ApiError where
  | badRequest (detail : String)
  | notFound (detail : String)
  | forbidden (detail : String)
  | internal (detail : String)
deriving Repr, DecidableEq

deriving instance DecidableEq for Except

/-- Row of the `categories` table (app/models/categories.py). -/
structure Category where
  id : Nat
  name : String
  parent_id : Option Nat
  is_active : Bool
deriving Repr, DecidableEq

/-- Row of the `products` table: fields as exposed by the ORM model and the
`Product` response schema; `price` is in integer cents, `rating` is the
derived average, `created_at` is an abstract timestamp ordinal. -/
structure Product where
  id : Nat
  name : String
  description : Option String
  price : Option Int
  image_url : Option String
  stock : Nat
  category_id : Nat
  seller_id : Nat
  rating : ℚ
  is_active : Bool
  created_at : Nat
deriving Repr, DecidableEq

/-- Row of the `reviews` table (app/models/reviews.py); the free-text comment
and its date play no role in any claim-relevant computation. -/
structure Review where
  id : Nat
  grade : Nat
  user_id : Nat
  product_id : Nat
  is_active : Bool
deriving Repr, DecidableEq

/-- Row of the `cart_items` table. -/
structure CartItemRow where
  id : Nat
  user_id : Nat
  product_id : Nat
  quantity : Nat
deriving Repr, DecidableEq

/-- The authenticated principal supplied by the auth collaborator. -/
structure UserRec where
  id : Nat
  role : String
deriving Repr, DecidableEq

/-- The database state: one list per table plus the autoincrement counters
used when inserting new rows. -/
structure DB where
  categories : List Category
  products : List Product
  reviews : List Review
  cart_items : List CartItemRow
  next_category_id : Nat
  next_review_id : Nat
  next_cart_item_id : Nat
deriving Repr, DecidableEq

/-- Request body `CategoryCreate` (app/schemas.py). -/
structure CategoryCreate where
  name : String
  parent_id : Option Nat
deriving Repr, DecidableEq

/-- `select(Category).where(Category.id == i, Category.is_active == True)`
followed by `.first()`. -/
def findActiveCategory (db : DB) (i : Nat) : Option Category :=
  db.categories.find? (fun k => k.id == i && k.is_active)

/-- POST /categories/ (app/routers/categories.py, create_category): validate
the optional parent (must exist and be active), then insert the new row. -/
def create_category (db : DB) (c : CategoryCreate) : Except ApiError (DB × Category) :=
  let insert : Except ApiError (DB × Category) :=
    let row : Category :=
      { id := db.next_category_id, name := c.name, parent_id := c.parent_id, is_active := true }
    .ok ({ db with
             categories := db.categories ++ [row],
             next_category_id := db.next_category_id + 1 }, row)
  match c.parent_id with
  | some pid =>
      match findActiveCategory db pid with
      | none => .error (.badRequest "Parent category not found")
      | some _ => insert
  | none => insert

/-- PUT /categories/{category_id} (app/routers/categories.py,
update_category): load the active category, validate the optional new parent
(active, and not the category itself), then rewrite the row; with
`exclude_unset=True` the parent reference is rewritten only when the body
provides one. -/
def update_category (db : DB) (category_id : Nat) (c : CategoryCreate) :
    Except ApiError (DB × Category) :=
  match findActiveCategory db category_id with
  | none => .error (.notFound "Category not found")
  | some db_category =>
    let doUpdate : Except ApiError (DB × Category) :=
      .ok ({ db with
               categories := db.categories.map (fun k =>
                 if k.id == category_id then
                   { k with
                       name := c.name,
                       parent_id := match c.parent_id with
                         | some p => some p
                         | none => k.parent_id }
                 else k) }, db_category)
    match c.parent_id with
    | some pid =>
        match findActiveCategory db pid with
        | none => .error (.badRequest "Parent category not found")
        | some parent =>
            if parent.id == category_id then
              .error (.badRequest "Category cannot be its own parent")
            else doUpdate
    | none => doUpdate

/-- DELETE /categories/{category_id} (app/routers/categories.py,
delete_category): load the active category, then set `is_active = false` on
the rows with that id; no other row of any table is touched. -/
def delete_category (db : DB) (category_id : Nat) : Except ApiError (DB × Category) :=
  match findActiveCategory db category_id with
  | none => .error (.notFound "Category not found")
  | some db_category =>
      .ok ({ db with
               categories := db.categories.map (fun k =>
                 if k.id == category_id then { k with is_active := false } else k) },
           db_category)

/-- Parent pointer of the category with the given id, when that category
exists and has a parent. -/
def parentOf (cats : List Category) (i : Nat) : Option Nat :=
  (cats.find? (fun k => k.id == i)).bind Category.parent_id

/-- Walking up the parent chain from `cur` for at most `fuel` steps, does the
chain come back to `start`? -/
def cycleBack (cats : List Category) (start : Nat) : Nat → Nat → Bool
  | _, 0 => false
  | cur, fuel + 1 =>
      match parentOf cats cur with
      | none => false
      | some p => p == start || cycleBack cats start p fuel

/-- Some category lies on a cycle of the parent chain (walking at most as
many steps as there are categories). -/
def hasCycle (cats : List Category) : Bool :=
  cats.any (fun k => cycleBack cats k.id k.id cats.length)

/-- Query parameters of GET /products/ after FastAPI validation
(page ≥ 1, 1 ≤ page_size ≤ 100, non-negative optional price bounds). -/
structure ListingParams where
  page : Nat
  page_size : Nat
  category_id : Option Nat
  search : Option String
  min_price : Option Int
  max_price : Option Int
  in_stock : Option Bool
  created_at : Option Nat
  seller_id : Option Nat
deriving Repr, DecidableEq

/-- Response schema `ProductList`. -/
structure ProductList where
  items : List Product
  total : Nat
  page : Nat
  page_size : Nat
deriving Repr, DecidableEq

/-- The `min_price > max_price` validation of get_all_products
(app/routers/products.py line 78). -/
def minMaxInvalid (q : ListingParams) : Bool :=
  match q.min_price, q.max_price with
  | some a, some b => decide (a > b)
  | _, _ => false

/-- Python's `str.strip()`: whitespace removed from both ends. -/
def pyStrip (s : String) : String :=
  String.mk (((s.data.dropWhile Char.isWhitespace).reverse.dropWhile
    Char.isWhitespace).reverse)

/-- The effective search term: Python's `if search:` skips `None` and the
empty string, then `search.strip()` is applied and an empty result is again
skipped, so only a non-empty stripped term produces a predicate. -/
def searchTerm (q : ListingParams) : Option String :=
  match q.search with
  | none => none
  | some s =>
      if s == "" then none
      else if pyStrip s == "" then none else some (pyStrip s)

/-- One SQL comparison against a nullable column: a NULL operand makes the
predicate unsatisfied. -/
def priceCmp (cmp : Int → Bool) : Option Int → Bool
  | some v => cmp v
  | none => false

/-- The conjunction of filter predicates accumulated by get_all_products
(app/routers/products.py lines 84-99 and 109): `is_active == True` always,
one predicate per present optional parameter, and the full-text match
predicate when a search term is present. -/
def productFilter (tsvMatch : String → Product → Bool) (q : ListingParams)
    (p : Product) : Bool :=
  p.is_active
  && (match q.category_id with | some c => p.category_id == c | none => true)
  && (match q.min_price with | some m => priceCmp (fun v => decide (m ≤ v)) p.price | none => true)
  && (match q.max_price with | some m => priceCmp (fun v => decide (v ≤ m)) p.price | none => true)
  && (match q.in_stock with
      | some b => if b then decide (0 < p.stock) else p.stock == 0
      | none => true)
  && (match q.seller_id with | some s => p.seller_id == s | none => true)
  && (match q.created_at with | some t => decide (t ≤ p.created_at) | none => true)
  && (match searchTerm q with | some s => tsvMatch s p | none => true)

/-- The ORDER BY used when a search term is present: rank descending, id
ascending as tie-break. -/
def searchRel (rank : Product → ℚ) (a b : Product) : Prop :=
  rank b < rank a ∨ (rank a = rank b ∧ a.id ≤ b.id)

instance (rank : Product → ℚ) : DecidableRel (searchRel rank) := fun a b => by
  unfold searchRel; infer_instance

/-- The ORDER BY used without a search term: id ascending. -/
def idAscRel (a b : Product) : Prop := a.id ≤ b.id

instance : DecidableRel idAscRel := fun a b => by unfold idAscRel; infer_instance

/-- GET /products/ (app/routers/products.py, get_all_products): validate the
price bounds, accumulate the filters, count the matching rows before
pagination (the count statement is rebuilt after the search predicate is
appended, so `total` honours the search filter too), order by rank
descending then id ascending when searching and by id ascending otherwise,
and apply offset `(page-1)*page_size` and limit `page_size`. -/
def get_all_products (dbp : List Product) (tsvMatch : String → Product → Bool)
    (tsRank : String → Product → ℚ) (q : ListingParams) :
    Except ApiError ProductList :=
  if minMaxInvalid q then
    .error (.badRequest "min_price cannot exceed max_price")
  else
    let matching := dbp.filter (productFilter tsvMatch q)
    let total := matching.length
    let sorted := match searchTerm q with
      | some s => matching.insertionSort (searchRel (tsRank s))
      | none => matching.insertionSort idAscRel
    let items := (sorted.drop ((q.page - 1) * q.page_size)).take q.page_size
    .ok { items := items, total := total, page := q.page, page_size := q.page_size }

/-- Request body `ProductCreate` (app/schemas.py); `price` is in cents and
positive after validation. -/
structure ProductCreate where
  name : String
  description : Option String
  price : Int
  image_url : Option String
  stock : Nat
  category_id : Nat
deriving Repr, DecidableEq

/-- `select(Product).where(Product.id == i, Product.is_active == True)`
followed by `.first()`. -/
def findActiveProduct (db : DB) (i : Nat) : Option Product :=
  db.products.find? (fun p => p.id == i && p.is_active)

/-- PUT /products/{product_id} (app/routers/products.py, update_product):
load the product restricted to `is_active == True` (404 "Product not found"
otherwise), check ownership (403), validate the new category (active, else
400), then rewrite the row from the body; a freshly uploaded image replaces
the body's image reference. -/
def update_product (db : DB) (product_id : Nat) (body : ProductCreate)
    (image : Option String) (current_user : UserRec) :
    Except ApiError (DB × Product) :=
  match findActiveProduct db product_id with
  | none => .error (.notFound "Product not found")
  | some db_product =>
    if db_product.seller_id != current_user.id then
      .error (.forbidden "You can only update your own products")
    else
      match findActiveCategory db body.category_id with
      | none => .error (.badRequest "Category not found or inactive")
      | some _ =>
        let newImage := match image with
          | some url => some url
          | none => body.image_url
        let updated : Product :=
          { db_product with
              name := body.name, description := body.description,
              price := some body.price, image_url := newImage,
              stock := body.stock, category_id := body.category_id }
        .ok ({ db with
                 products := db.products.map (fun p =>
                   if p.id == product_id then
                     { p with
                         name := body.name, description := body.description,
                         price := some body.price, image_url := newImage,
                         stock := body.stock, category_id := body.category_id }
                   else p) }, updated)

/-- DELETE /products/{product_id} (app/routers/products.py, delete_product):
load the product restricted to `is_active == True` (404 "Product not found or
inactive" otherwise), check ownership (403), then set `is_active = false` on
that id and return the refreshed row. -/
def delete_product (db : DB) (product_id : Nat) (current_user : UserRec) :
    Except ApiError (DB × Product) :=
  match findActiveProduct db product_id with
  | none => .error (.notFound "Product not found or inactive")
  | some product =>
    if product.seller_id != current_user.id then
      .error (.forbidden "You can only delete your own products")
    else
      .ok ({ db with
               products := db.products.map (fun p =>
                 if p.id == product_id then { p with is_active := false } else p) },
           { product with is_active := false })

/-- Response rows of GET /cart/ and the cart totals (schema `Cart`);
`total_price` is in integer cents. -/
structure CartOut where
  user_id : Nat
  items : List CartItemRow
  total_quantity : Nat
  total_price : Int
deriving Repr, DecidableEq

/-- Request body `CartItemCreate`. -/
structure CartItemCreate where
  product_id : Nat
  quantity : Nat
deriving Repr, DecidableEq

/-- Request body `CartItemUpdate`. -/
structure CartItemUpdate where
  quantity : Nat
deriving Repr, DecidableEq

/-- The helper _ensure_product_available (app/routers/cart.py lines 17-22):
the product must exist and be active; the result records whether the 404
would be raised. -/
def ensure_product_available (db : DB) (product_id : Nat) : Except ApiError Unit :=
  match findActiveProduct db product_id with
  | none => .error (.notFound "Product not found or inactive")
  | some _ => .ok ()

/-- The helper _get_cart_item: first row for (user_id, product_id). -/
def get_cart_item (db : DB) (user_id product_id : Nat) : Option CartItemRow :=
  db.cart_items.find? (fun it => it.user_id == user_id && it.product_id == product_id)

/-- Row ordering of the cart listing (`order_by(CartItem.id)`). -/
def cartIdRel (a b : CartItemRow) : Prop := a.id ≤ b.id

instance : DecidableRel cartIdRel := fun a b => by unfold cartIdRel; infer_instance

/-- The price a cart row contributes per unit (app/routers/cart.py line 39):
the product relation is loaded by primary key with no activity restriction;
a NULL price counts as zero, but a missing product row makes the attribute
access crash (`none` here). -/
def cartRowUnitPrice (db : DB) (it : CartItemRow) : Option Int :=
  (db.products.find? (fun p => p.id == it.product_id)).map (fun p =>
    match p.price with
    | some pr => pr
    | none => 0)

/-- Traversal that stops at the first failing element, as the summed Python
generator expression does when an attribute access raises mid-way. -/
def traverseOption {α β : Type} (f : α → Option β) : List α → Option (List β)
  | [] => some []
  | a :: l =>
      match f a, traverseOption f l with
      | some b, some bs => some (b :: bs)
      | _, _ => none

/-- GET /cart/ (app/routers/cart.py, get_cart): list the user's rows ordered
by id, sum the quantities, and sum quantity × current unit price; a row whose
product row is missing raises an AttributeError (internal error). -/
def get_cart (db : DB) (user : Nat) : Except ApiError CartOut :=
  let rows := (db.cart_items.filter (fun it => it.user_id == user)).insertionSort cartIdRel
  let total_quantity := (rows.map (fun it => it.quantity)).sum
  match traverseOption (fun it =>
      (cartRowUnitPrice db it).map (fun pr => (it.quantity : Int) * pr)) rows with
  | none => .error (.internal "AttributeError")
  | some contribs =>
      .ok { user_id := user, items := rows, total_quantity := total_quantity,
            total_price := contribs.sum }

/-- POST /cart/items (app/routers/cart.py, add_item_to_cart): check the
product is active, then increment the existing (user, product) row's quantity
or insert a new row, and re-read the row for the response. -/
def add_item_to_cart (db : DB) (user : Nat) (payload : CartItemCreate) :
    Except ApiError (DB × CartItemRow) :=
  match ensure_product_available db payload.product_id with
  | .error e => .error e
  | .ok _ =>
    let db1 : DB :=
      match get_cart_item db user payload.product_id with
      | some item =>
          { db with
              cart_items := db.cart_items.map (fun it =>
                if it.id == item.id then
                  { it with quantity := it.quantity + payload.quantity }
                else it) }
      | none =>
          { db with
              cart_items := db.cart_items ++
                [{ id := db.next_cart_item_id, user_id := user,
                   product_id := payload.product_id, quantity := payload.quantity }],
              next_cart_item_id := db.next_cart_item_id + 1 }
    match get_cart_item db1 user payload.product_id with
    | some updated => .ok (db1, updated)
    | none => .error (.internal "response validation failed")

/-- PUT /cart/items/{product_id} (app/routers/cart.py, update_cart_item):
the product check runs first, so a missing or inactive product yields the
404 "Product not found or inactive" before the cart row is even read; only
then is the row looked up and its quantity set to the exact new value. -/
def update_cart_item (db : DB) (user product_id : Nat) (payload : CartItemUpdate) :
    Except ApiError (DB × CartItemRow) :=
  match ensure_product_available db product_id with
  | .error e => .error e
  | .ok _ =>
    match get_cart_item db user product_id with
    | none => .error (.notFound "Cart item not found")
    | some item =>
      let db1 : DB :=
        { db with
            cart_items := db.cart_items.map (fun it =>
              if it.id == item.id then { it with quantity := payload.quantity } else it) }
      match get_cart_item db1 user product_id with
      | some updated => .ok (db1, updated)
      | none => .error (.internal "response validation failed")

/-- Request body `CreateReview` (the optional comment is omitted: it never
influences a computation). -/
structure CreateReview where
  product_id : Nat
  grade : Nat
deriving Repr, DecidableEq

/-- The SQL `AVG(grade)` over rows with the given product_id — the source
applies NO `is_active` restriction here (app/routers/reviews.py lines 17-18);
`scalar() or 0.0` turns the NULL average of an empty set into 0.0. -/
def avgGradeAllRows (db : DB) (product_id : Nat) : ℚ :=
  let grades := (db.reviews.filter (fun r => r.product_id == product_id)).map
    (fun r => r.grade)
  match grades with
  | [] => 0
  | _ => ((grades.map (fun g => (g : ℚ))).sum) / (grades.length : ℚ)

/-- update_product_rating (app/routers/reviews.py lines 16-22): store the
average computed by `avgGradeAllRows` into the product row loaded by primary
key (no activity restriction); a missing product makes `product.rating = ...`
crash on `None`. -/
def update_product_rating (db : DB) (product_id : Nat) : Except ApiError DB :=
  let avg := avgGradeAllRows db product_id
  match db.products.find? (fun p => p.id == product_id) with
  | none => .error (.internal "AttributeError")
  | some _ =>
      .ok { db with
              products := db.products.map (fun p =>
                if p.id == product_id then { p with rating := avg } else p) }

/-- The state committed by create_review's first `commit()`: the new review
row inserted, nothing else changed. -/
def insertReviewDB (db : DB) (user_id : Nat) (r : CreateReview) : DB :=
  { db with
      reviews := db.reviews ++
        [{ id := db.next_review_id, grade := r.grade, user_id := user_id,
           product_id := r.product_id, is_active := true }],
      next_review_id := db.next_review_id + 1 }

/-- POST /reviews/ (app/routers/reviews.py, create_review): check the product
is active (404 otherwise), insert the review and `commit()`, then call
update_product_rating which performs a second `commit()`. The result lists
the successively committed states, exposing the commit granularity: an abort
between the two commits leaves exactly the first state durable. -/
def create_review (db : DB) (user_id : Nat) (r : CreateReview) :
    Except ApiError (List DB) :=
  match findActiveProduct db r.product_id with
  | none => .error (.notFound "Product not found or inactive")
  | some product =>
    let db1 := insertReviewDB db user_id r
    match update_product_rating db1 product.id with
    | .error e => .error e
    | .ok db2 => .ok [db1, db2]

/-- DELETE /reviews/{review_id} (app/routers/reviews.py, delete_review): load
the active review (404 otherwise), authorize the author or an admin (403),
flip `is_active` to false (the pending change is flushed before the rating
query runs), then recompute the rating; the single `commit()` inside
update_product_rating persists both changes at once. -/
def delete_review (db : DB) (review_id : Nat) (current_user : UserRec) :
    Except ApiError DB :=
  match db.reviews.find? (fun r => r.id == review_id && r.is_active) with
  | none => .error (.notFound "Review not found or inactive")
  | some review =>
    if review.user_id != current_user.id && current_user.role != "admin" then
      .error (.forbidden "You can`t perform this action")
    else
      let db1 : DB :=
        { db with
            reviews := db.reviews.map (fun r =>
              if r.id == review_id then { r with is_active := false } else r) }
      update_product_rating db1 review.product_id

/-- The rating stored on the product row with the given id (0 when the row is
absent, for stating theorems only). -/
def ratingOf (db : DB) (product_id : Nat) : ℚ :=
  ((db.products.find? (fun p => p.id == product_id)).map (fun p => p.rating)).getD 0

/-- The rating the specification defines: the arithmetic mean of `grade` over
reviews whose product_id matches and whose `is_active = true`, and 0 when no
active review remains. This definition follows the specification's words, to
be compared with the behaviour of `update_product_rating`. -/
def specActiveMeanGrade (db : DB) (product_id : Nat) : ℚ :=
  let grades := (db.reviews.filter (fun r => r.product_id == product_id && r.is_active)).map
    (fun r => r.grade)
  match grades with
  | [] => 0
  | _ => ((grades.map (fun g => (g : ℚ))).sum) / (grades.length : ℚ)

/-- A convenient fully-populated product row to build example states from. -/
def baseProduct : Product :=
  { id := 1, name := "p", description := none, price := some 100,
    image_url := none, stock := 1, category_id := 1, seller_id := 1,
    rating := 0, is_active := true, created_at := 0 }

/-- An empty database. -/
def emptyDB : DB :=
  { categories := [], products := [], reviews := [], cart_items := [],
    next_category_id := 1, next_review_id := 1, next_cart_item_id := 1 }

/-- C9: soft-deleting a category changes no other row: the product, review
and cart tables are untouched, and every category row with a different id is
carried over to the new state unchanged (in particular every child category
and every product referencing the deleted category keeps its own is_active
flag). -/
theorem delete_category_frame (db : DB) (cid : Nat) (db2 : DB) (cat : Category)
    (h : delete_category db cid = .ok (db2, cat)) :
    db2.products = db.products ∧ db2.reviews = db.reviews ∧
    db2.cart_items = db.cart_items ∧
    ∀ k ∈ db.categories, k.id ≠ cid → k ∈ db2.categories := by
  unfold delete_category at h
  cases hf : findActiveCategory db cid with
  | none => rw [hf] at h; exact absurd h (by simp)
  | some c0 =>
      rw [hf] at h
      simp only [Except.ok.injEq, Prod.mk.injEq] at h
      obtain ⟨h1, -⟩ := h
      subst h1
      refine ⟨rfl, rfl, rfl, ?_⟩
      intro k hk hne
      refine List.mem_map.mpr ⟨k, hk, ?_⟩
      simp [hne]

/-- Example state for the category soft-delete claim: category 1 with child
category 2 and a product in category 1. -/
def exDB9 : DB :=
  { emptyDB with
      categories := [{ id := 1, name := "root", parent_id := none, is_active := true },
                     { id := 2, name := "child", parent_id := some 1, is_active := true }],
      products := [{ baseProduct with id := 5, category_id := 1 }],
      next_category_id := 3 }

/-- The state after soft-deleting category 1 of `exDB9`. -/
def exDB9after : DB :=
  { exDB9 with
      categories := [{ id := 1, name := "root", parent_id := none, is_active := false },
                     { id := 2, name := "child", parent_id := some 1, is_active := true }] }

theorem delete_category_frame_witness :
    exDB9after.products = exDB9.products ∧
    ({ id := 2, name := "child", parent_id := some 1, is_active := true } : Category)
      ∈ exDB9after.categories :=
  have h := delete_category_frame exDB9 1 exDB9after
    { id := 1, name := "root", parent_id := none, is_active := true } (by decide)
  ⟨h.1, h.2.2.2 { id := 2, name := "child", parent_id := some 1, is_active := true }
      (by decide) (by decide)⟩

/-- Example state for the cycle claim: an acyclic two-category chain
(2's parent is 1). -/
def exDB8 : DB :=
  { emptyDB with
      categories := [{ id := 1, name := "a", parent_id := none, is_active := true },
                     { id := 2, name := "b", parent_id := some 1, is_active := true }],
      next_category_id := 3 }

/-- The state produced by re-parenting category 1 under category 2: a
two-step parent cycle. -/
def exDB8after : DB :=
  { exDB8 with
      categories := [{ id := 1, name := "a", parent_id := some 2, is_active := true },
                     { id := 2, name := "b", parent_id := some 1, is_active := true }] }

/-- C8 counterexample: starting from an acyclic state, the write
`update_category 1 {parent_id := 2}` is ACCEPTED by the code (the handler
only compares the new parent's id with the category's own id, it never walks
the ancestor chain), and the resulting state has a cyclic parent chain — so
it is false that every cycle-introducing category write is rejected. -/
theorem update_category_cycle_counterexample :
    hasCycle exDB8.categories = false ∧
    update_category exDB8 1 { name := "a", parent_id := some 2 } =
      .ok (exDB8after, { id := 1, name := "a", parent_id := none, is_active := true }) ∧
    hasCycle exDB8after.categories = true := by decide

/-- C8 amended: the only cycle guard the category writes implement is the
direct self-parent check of update_category: setting an existing active
category's parent to itself is rejected with 400 "Category cannot be its own
parent"; the ancestor chain is never walked, so longer cycles are not
rejected (see the counterexample). -/
theorem update_category_rejects_direct_self_parent (db : DB) (cid : Nat) (nm : String)
    (h : (findActiveCategory db cid).isSome) :
    update_category db cid { name := nm, parent_id := some cid } =
      .error (.badRequest "Category cannot be its own parent") := by
  obtain ⟨c0, hc0⟩ := Option.isSome_iff_exists.mp h
  have hpred := List.find?_some hc0
  have hid : (c0.id == cid) = true := by
    revert hpred; cases c0.id == cid <;> simp
  simp [update_category, hc0, hid]

theorem update_category_rejects_direct_self_parent_witness :
    update_category exDB8 2 { name := "b", parent_id := some 2 } =
      .error (.badRequest "Category cannot be its own parent") :=
  update_category_rejects_direct_self_parent exDB8 2 "b" (by decide)

/-- Example state for the ownership-check claim: product 1 exists but is
inactive and belongs to seller 2; the caller is seller 1, with an active
category 1 available for the update body. -/
def exDB4 : DB :=
  { emptyDB with
      categories := [{ id := 1, name := "cat", parent_id := none, is_active := true }],
      products := [{ baseProduct with id := 1, seller_id := 2, is_active := false }] }

/-- A well-formed update body used throughout the ownership examples. -/
def exBody4 : ProductCreate :=
  { name := "new", description := none, price := 100, image_url := none,
    stock := 1, category_id := 1 }

/-- C4 counterexample: seller 1 requests an update and a soft-delete of the
existing-but-inactive product 1 owned by seller 2; both handlers load the
row with the `is_active == True` restriction, miss it, and answer
NotFoundError — not the ForbiddenError the claim requires for an existing
product of another seller. -/
theorem ownership_check_counterexample :
    ((exDB4.products.find? (fun p => p.id == 1)).map
        (fun p => (p.is_active, p.seller_id)) = some (false, 2)) ∧
    update_product exDB4 1 exBody4 none { id := 1, role := "seller" } =
      .error (.notFound "Product not found") ∧
    delete_product exDB4 1 { id := 1, role := "seller" } =
      .error (.notFound "Product not found or inactive") := by decide

/-- C4 amended: the ownership lookups of update_product and delete_product
are restricted to `is_active == True`, so whenever no ACTIVE row with the id
exists — including when an inactive row exists, whatever its owner —
both handlers answer NotFoundError; ForbiddenError is produced exactly when
an active row exists and belongs to another seller. -/
theorem ownership_checks_active_only (db : DB) (pid : Nat) (body : ProductCreate)
    (img : Option String) (u : UserRec) :
    (findActiveProduct db pid = none →
        update_product db pid body img u = .error (.notFound "Product not found") ∧
        delete_product db pid u = .error (.notFound "Product not found or inactive")) ∧
    (∀ p, findActiveProduct db pid = some p → p.seller_id ≠ u.id →
        update_product db pid body img u =
          .error (.forbidden "You can only update your own products") ∧
        delete_product db pid u =
          .error (.forbidden "You can only delete your own products")) := by
  constructor
  · intro h
    unfold update_product delete_product
    rw [h]
    exact ⟨rfl, rfl⟩
  · intro p hp hs
    have hbne : (p.seller_id != u.id) = true := by
      simp [bne, hs]
    unfold update_product delete_product
    rw [hp]
    simp [hbne]

/-- A state with an ACTIVE product of seller 2, for the forbidden branch. -/
def exDB4b : DB :=
  { exDB4 with products := [{ baseProduct with id := 1, seller_id := 2 }] }

theorem ownership_checks_active_only_witness :
    update_product exDB4b 1 exBody4 none { id := 1, role := "seller" } =
      .error (.forbidden "You can only update your own products") ∧
    delete_product exDB4b 1 { id := 1, role := "seller" } =
      .error (.forbidden "You can only delete your own products") :=
  (ownership_checks_active_only exDB4b 1 exBody4 none { id := 1, role := "seller" }).2
    { baseProduct with id := 1, seller_id := 2 } (by decide) (by decide)

/-- C10: update_cart_item calls _ensure_product_available before it touches
the cart, so when no active product with the id exists the request fails with
404 "Product not found or inactive" even though a cart row for
(user, product_id) exists; the `.error` result carries no new state, so the
existing row's quantity is untouched (the request's transaction rolls back).
-/
theorem update_cart_item_product_checked_first (db : DB) (user pid : Nat)
    (payload : CartItemUpdate)
    (hprod : findActiveProduct db pid = none)
    (_hrow : (get_cart_item db user pid).isSome) :
    update_cart_item db user pid payload =
      .error (.notFound "Product not found or inactive") := by
  unfold update_cart_item ensure_product_available
  rw [hprod]

/-- Example state for the cart-update claim: product 7 exists but is
inactive, while user 1 already has a cart row for it. -/
def exDB10 : DB :=
  { emptyDB with
      products := [{ baseProduct with id := 7, is_active := false }],
      cart_items := [{ id := 1, user_id := 1, product_id := 7, quantity := 3 }],
      next_cart_item_id := 2 }

theorem update_cart_item_product_checked_first_witness :
    update_cart_item exDB10 1 7 { quantity := 5 } =
      .error (.notFound "Product not found or inactive") :=
  update_cart_item_product_checked_first exDB10 1 7 { quantity := 5 }
    (by decide) (by decide)

/-- The (user, product) key predicate on a cart row. -/
def rowMatches (user pid : Nat) (it : CartItemRow) : Bool :=
  it.user_id == user && it.product_id == pid

theorem get_cart_item_eq (db : DB) (u p : Nat) :
    get_cart_item db u p = db.cart_items.find? (rowMatches u p) := rfl

theorem rowMatches_increment (user pid q iid : Nat) (x : CartItemRow) :
    rowMatches user pid (if x.id == iid then { x with quantity := x.quantity + q } else x)
      = rowMatches user pid x := by
  cases h : x.id == iid <;> simp [rowMatches, h]

/-- C7: add_item_to_cart is an upsert on the (user_id, product_id) key: given
an active product and a cart holding at most one row for that key (the
store-level uniqueness invariant), the handler succeeds and afterwards the
cart holds EXACTLY one row for the key, whose quantity is the previous
quantity (0 when the row was absent) plus the requested amount — adding never
produces a second row. -/
theorem add_item_upsert (db : DB) (user : Nat) (payload : CartItemCreate)
    (hactive : (findActiveProduct db payload.product_id).isSome)
    (hinv : (db.cart_items.filter (rowMatches user payload.product_id)).length ≤ 1) :
    ((add_item_to_cart db user payload).toOption.map (fun r =>
        (r.1.cart_items.filter (rowMatches user payload.product_id)).map
          (fun it => it.quantity)))
      = some [((db.cart_items.filter (rowMatches user payload.product_id)).map
          (fun it => it.quantity)).sum + payload.quantity] := by
  obtain ⟨p, hp⟩ := Option.isSome_iff_exists.mp hactive
  unfold add_item_to_cart ensure_product_available
  rw [hp]
  rw [get_cart_item_eq]
  cases hfind : db.cart_items.find? (rowMatches user payload.product_id) with
  | none =>
      have hfilter : db.cart_items.filter (rowMatches user payload.product_id) = [] := by
        refine List.filter_eq_nil_iff.mpr ?_
        intro a ha
        simpa using List.find?_eq_none.mp hfind a ha
      have hnew : rowMatches user payload.product_id
          { id := db.next_cart_item_id, user_id := user,
            product_id := payload.product_id, quantity := payload.quantity } = true := by
        simp [rowMatches]
      simp [get_cart_item_eq, List.find?_append, hfind, List.find?, hnew,
        List.filter_append, hfilter, List.filter, Except.toOption]
  | some item =>
      have hpred : rowMatches user payload.product_id item = true := List.find?_some hfind
      have hmem : item ∈ db.cart_items := List.mem_of_find?_eq_some hfind
      have hmemf : item ∈ db.cart_items.filter (rowMatches user payload.product_id) :=
        List.mem_filter.mpr ⟨hmem, hpred⟩
      have hone : (db.cart_items.filter (rowMatches user payload.product_id)).length = 1 := by
        have hpos : 0 < (db.cart_items.filter (rowMatches user payload.product_id)).length :=
          List.length_pos.mpr (List.ne_nil_of_mem hmemf)
        omega
      have h1 : db.cart_items.filter (rowMatches user payload.product_id) = [item] := by
        obtain ⟨a, ha⟩ := List.length_eq_one.mp hone
        rw [ha] at hmemf
        simp only [List.mem_singleton] at hmemf
        rw [ha, hmemf]
      have hmap : (db.cart_items.map (fun it =>
            if it.id == item.id then { it with quantity := it.quantity + payload.quantity }
            else it)).filter (rowMatches user payload.product_id)
          = [{ item with quantity := item.quantity + payload.quantity }] := by
        rw [List.filter_map]
        simp only [Function.comp_def]
        rw [List.filter_congr (fun x _ =>
          rowMatches_increment user payload.product_id payload.quantity item.id x)]
        rw [h1]
        simp [List.map]
      have hfind2 : ((db.cart_items.map (fun it =>
            if it.id == item.id then { it with quantity := it.quantity + payload.quantity }
            else it)).find? (rowMatches user payload.product_id)).isSome := by
        rw [List.find?_isSome]
        refine ⟨{ item with quantity := item.quantity + payload.quantity }, ?_, ?_⟩
        · have : { item with quantity := item.quantity + payload.quantity } ∈
              (db.cart_items.map (fun it =>
                if it.id == item.id then { it with quantity := it.quantity + payload.quantity }
                else it)).filter (rowMatches user payload.product_id) := by
            rw [hmap]; exact List.mem_singleton.mpr rfl
          exact (List.mem_filter.mp this).1
        · simpa [rowMatches] using hpred
      obtain ⟨u2, hu2⟩ := Option.isSome_iff_exists.mp hfind2
      simp only [hfind, get_cart_item_eq]
      rw [hu2]
      simp only [beq_iff_eq] at hmap
      simp [Except.toOption, hmap, h1]

/-- Example state for the upsert claim: user 1 already has quantity 2 of the
active product 7 in the cart. -/
def exDB7 : DB :=
  { emptyDB with
      products := [{ baseProduct with id := 7 }],
      cart_items := [{ id := 1, user_id := 1, product_id := 7, quantity := 2 }],
      next_cart_item_id := 2 }

theorem add_item_upsert_witness :
    ((add_item_to_cart exDB7 1 { product_id := 7, quantity := 2 }).toOption.map (fun r =>
        (r.1.cart_items.filter (rowMatches 1 7)).map (fun it => it.quantity)))
      = some [4] :=
  (add_item_upsert exDB7 1 { product_id := 7, quantity := 2 } (by decide)
    (by decide)).trans (by decide)

/-- Successful elementwise runs of an Option-valued traversal. -/
theorem traverseOption_eq_map {α β : Type} (f : α → Option β) (g : α → β) :
    ∀ l : List α, (∀ x ∈ l, f x = some (g x)) → traverseOption f l = some (l.map g)
  | [], _ => by simp [traverseOption]
  | a :: l, h => by
      have ha := h a (List.mem_cons_self a l)
      have hl := traverseOption_eq_map f g l (fun x hx => h x (List.mem_cons_of_mem a hx))
      simp [traverseOption, ha, hl]

/-- Example state for the cart totals claim: product 7 is INACTIVE with price
500 cents and user 1 holds one unit of it. -/
def exDB2 : DB :=
  { emptyDB with
      products := [{ baseProduct with id := 7, price := some 500, is_active := false }],
      cart_items := [{ id := 1, user_id := 1, product_id := 7, quantity := 1 }],
      next_cart_item_id := 2 }

/-- C2 counterexample: the product of user 1's only cart row is inactive, yet
get_cart charges its full current price — total_price is 500 cents, not the
zero contribution the claim requires for a row whose product is inactive at
read time (the code only zeroes a NULL price; it never consults is_active). -/
theorem get_cart_inactive_price_counterexample :
    ((exDB2.products.find? (fun p => p.id == 7)).map (fun p => p.is_active)
        = some false) ∧
    get_cart exDB2 1 =
      .ok { user_id := 1,
            items := [{ id := 1, user_id := 1, product_id := 7, quantity := 1 }],
            total_quantity := 1, total_price := 500 } ∧
    (500 : Int) ≠ 0 := by decide

/-- The rows of one user's cart, in table order. -/
def userRows (db : DB) (user : Nat) : List CartItemRow :=
  db.cart_items.filter (fun it => it.user_id == user)

/-- What one cart row adds to total_price: quantity times the product's
current price, a NULL price counting as zero (and an absent product row as
zero as well, though get_cart crashes before summing in that case). -/
def liveContribution (db : DB) (it : CartItemRow) : Int :=
  (it.quantity : Int) *
    (((db.products.find? (fun p => p.id == it.product_id)).bind (fun p => p.price)).getD 0)

/-- C2 amended: whenever every cart row's product row exists, get_cart
returns total_quantity equal to the sum of the row quantities and total_price
equal to the sum over rows of quantity times the product's CURRENT price —
where only a NULL price contributes zero; a row whose product is inactive
contributes its full live price — and items lists exactly the user's rows
(every row appears, whatever its product's active flag). -/
theorem get_cart_totals (db : DB) (user : Nat)
    (hall : ∀ it ∈ userRows db user,
        (db.products.find? (fun p => p.id == it.product_id)).isSome) :
    ∀ c, get_cart db user = .ok c →
      c.total_quantity = ((userRows db user).map (fun it => it.quantity)).sum ∧
      c.total_price = ((userRows db user).map (liveContribution db)).sum ∧
      c.items.Perm (userRows db user) := by
  intro c hc
  have hperm : ((db.cart_items.filter (fun it => it.user_id == user)).insertionSort
      cartIdRel).Perm (userRows db user) := List.perm_insertionSort _ _
  have hmapM : traverseOption (fun it =>
          (cartRowUnitPrice db it).map (fun pr => (it.quantity : Int) * pr))
        ((db.cart_items.filter (fun it => it.user_id == user)).insertionSort cartIdRel)
      = some (((db.cart_items.filter (fun it => it.user_id == user)).insertionSort
          cartIdRel).map (liveContribution db)) := by
    apply traverseOption_eq_map
    intro x hx
    obtain ⟨p, hp⟩ := Option.isSome_iff_exists.mp (hall x (hperm.mem_iff.mp hx))
    cases hpr : p.price <;>
      simp [cartRowUnitPrice, liveContribution, hp, hpr]
  unfold get_cart at hc
  simp only [hmapM, Except.ok.injEq] at hc
  subst hc
  refine ⟨?_, ?_, hperm⟩
  · exact (hperm.map (fun it => it.quantity)).sum_eq
  · exact (hperm.map (liveContribution db)).sum_eq

/-- Example state for the amended totals: active product 7 costs 999 cents
(9.99) and user 1 holds three units. -/
def exDB2b : DB :=
  { emptyDB with
      products := [{ baseProduct with id := 7, price := some 999 }],
      cart_items := [{ id := 1, user_id := 1, product_id := 7, quantity := 3 }],
      next_cart_item_id := 2 }

/-- The cart get_cart returns on `exDB2b`: 3 units at 999 cents, 2997 cents
(29.97) total, exactly. -/
def exCart2 : CartOut :=
  { user_id := 1,
    items := [{ id := 1, user_id := 1, product_id := 7, quantity := 3 }],
    total_quantity := 3, total_price := 2997 }

theorem get_cart_totals_witness :
    exCart2.total_quantity = ((userRows exDB2b 1).map (fun it => it.quantity)).sum ∧
    exCart2.total_price = ((userRows exDB2b 1).map (liveContribution exDB2b)).sum ∧
    exCart2.items.Perm (userRows exDB2b 1) :=
  get_cart_totals exDB2b 1 (by decide) exCart2 (by decide)

/-- Example state for the rating claim: active product 1 with three active
reviews of grades 4, 5 and 2; review 3 (grade 2, by user 12) is about to be
soft-deleted. -/
def exDB1 : DB :=
  { emptyDB with
      products := [{ baseProduct with id := 1 }],
      reviews := [{ id := 1, grade := 4, user_id := 10, product_id := 1, is_active := true },
                  { id := 2, grade := 5, user_id := 11, product_id := 1, is_active := true },
                  { id := 3, grade := 2, user_id := 12, product_id := 1, is_active := true }],
      next_review_id := 4 }

/-- C1, evaluated at the failing input: the author soft-deletes the grade-2
review, which triggers the recomputation — but update_product_rating averages
over ALL reviews of the product (its WHERE clause has no `is_active`
restriction), so the soft-deleted grade still counts: the stored rating
becomes (4+5+2)/3 = 11/3, while the mean over the remaining active reviews —
which the claim (and the soft-delete convention applied at every other read
site) requires — is (4+5)/2 = 9/2 = 4.5. -/
theorem rating_includes_soft_deleted_reviews :
    ((delete_review exDB1 3 { id := 12, role := "buyer" }).map (fun d =>
        (ratingOf d 1, specActiveMeanGrade d 1)))
      = .ok (11/3, 9/2) ∧ ((11 : ℚ)/3 ≠ 9/2) := by
  constructor
  · simp [delete_review, update_product_rating, avgGradeAllRows, ratingOf,
      specActiveMeanGrade, exDB1, emptyDB, baseProduct, List.find?, List.filter]
    simp [Except.map, List.find?, List.filter]
    norm_num
  · norm_num

/-- Example state for the atomicity claim: one active product, no reviews
yet, stored rating 0. -/
def exDB3 : DB :=
  { emptyDB with products := [{ baseProduct with id := 1 }] }

/-- C3 counterexample: buyer 30 posts a grade-5 review of product 1. The
handler issues TWO commits, and after the first committed state the review is
already persisted (one active review for the product) while the stored
rating is still the stale 0; only the second commit stores 5. A durable state
with the review but without the rating update exists, so review creation and
rating recomputation do NOT commit as one all-or-nothing unit. -/
theorem create_review_not_atomic_counterexample :
    ((create_review exDB3 30 { product_id := 1, grade := 5 }).map (fun l =>
        l.map (fun d =>
          ((d.reviews.filter (fun r => r.product_id == 1 && r.is_active)).length,
           ratingOf d 1))))
      = .ok [(1, 0), (1, 5)] := by
  simp [create_review, insertReviewDB, update_product_rating, avgGradeAllRows,
    ratingOf, exDB3, emptyDB, baseProduct, findActiveProduct, List.find?, List.filter]
  simp [Except.map, List.find?, List.filter]

/-- C3 amended: review creation is not atomic — it always produces exactly
two successive commits when it succeeds: the first durable state contains the
inserted review while Product.rating still holds its previous value, and only
the second durable state carries the recomputed rating. An abort between the
commits therefore leaves the review persisted without the rating update. -/
theorem create_review_two_commits (db : DB) (uid : Nat) (inp : CreateReview)
    (p : Product) (hp : findActiveProduct db inp.product_id = some p) :
    (create_review db uid inp).toOption.map (fun l =>
        (l.length, l.head?.map (fun d => (d.reviews, ratingOf d inp.product_id))))
      = some (2, some (db.reviews ++
          [{ id := db.next_review_id, grade := inp.grade, user_id := uid,
             product_id := inp.product_id, is_active := true }],
          ratingOf db inp.product_id)) := by
  unfold create_review
  rw [hp]
  have hfind : ((insertReviewDB db uid inp).products.find? (fun x => x.id == p.id)).isSome := by
    rw [List.find?_isSome]
    exact ⟨p, List.mem_of_find?_eq_some hp, by simp⟩
  obtain ⟨q, hq⟩ := Option.isSome_iff_exists.mp hfind
  unfold update_product_rating
  simp only [hq]
  simp [insertReviewDB, ratingOf, Except.toOption]

theorem create_review_two_commits_witness :
    (create_review exDB3 30 { product_id := 1, grade := 5 }).toOption.map (fun l =>
        (l.length, l.head?.map (fun d => (d.reviews, ratingOf d 1))))
      = some (2, some
          ([{ id := 1, grade := 5, user_id := 30, product_id := 1, is_active := true }],
           0)) :=
  (create_review_two_commits exDB3 30 { product_id := 1, grade := 5 }
    { baseProduct with id := 1 } (by decide)).trans (by decide)

instance (rank : Product → ℚ) : IsTotal Product (searchRel rank) where
  total a b := by
    unfold searchRel
    rcases lt_trichotomy (rank a) (rank b) with h | h | h
    · exact Or.inr (Or.inl h)
    · rcases Nat.le_total a.id b.id with hid | hid
      · exact Or.inl (Or.inr ⟨h, hid⟩)
      · exact Or.inr (Or.inr ⟨h.symm, hid⟩)
    · exact Or.inl (Or.inl h)

instance (rank : Product → ℚ) : IsTrans Product (searchRel rank) where
  trans a b c hab hbc := by
    unfold searchRel at hab hbc ⊢
    rcases hab with h1 | ⟨h1, h1id⟩
    · rcases hbc with h2 | ⟨h2, -⟩
      · exact Or.inl (h2.trans h1)
      · exact Or.inl (by rw [← h2]; exact h1)
    · rcases hbc with h2 | ⟨h2, h2id⟩
      · exact Or.inl (by rw [h1]; exact h2)
      · exact Or.inr ⟨h1.trans h2, h1id.trans h2id⟩

instance : IsTotal Product idAscRel where
  total a b := Nat.le_total a.id b.id

instance : IsTrans Product idAscRel where
  trans _ _ _ hab hbc := Nat.le_trans hab hbc

/-- C5: when the price-bound validation passes, the listing succeeds and its
`total` is the number of rows satisfying ALL filters (`is_active == True`
conjoined with every present optional filter, the search predicate included) —
a quantity computed before pagination, hence identical for every page and
page_size — and whenever the offset (page-1)*page_size reaches or passes that
total, `items` is empty while `total` is unchanged. -/
theorem listing_total_correct (dbp : List Product) (m : String → Product → Bool)
    (r : String → Product → ℚ) (q : ListingParams)
    (hv : minMaxInvalid q = false)
    (_hpage : 1 ≤ q.page) (_hps : 1 ≤ q.page_size ∧ q.page_size ≤ 100) :
    ∀ res, get_all_products dbp m r q = .ok res →
      res.total = (dbp.filter (productFilter m q)).length ∧
      (∀ pg ps res2,
        get_all_products dbp m r { q with page := pg, page_size := ps } = .ok res2 →
          res2.total = res.total) ∧
      ((q.page - 1) * q.page_size ≥ res.total → res.items = []) := by
  intro res hres
  unfold get_all_products at hres
  simp only [hv, Bool.false_eq_true, if_false] at hres
  simp only [Except.ok.injEq] at hres
  subst hres
  refine ⟨rfl, ?_, ?_⟩
  · intro pg ps res2 h2
    unfold get_all_products at h2
    have hv2 : minMaxInvalid { q with page := pg, page_size := ps } = false := hv
    simp only [hv2, Bool.false_eq_true, if_false] at h2
    simp only [Except.ok.injEq] at h2
    subst h2
    rfl
  · intro hge
    cases hst : searchTerm q with
    | some s =>
        simp only [hst]
        rw [List.drop_eq_nil_of_le, List.take_nil]
        rw [List.length_insertionSort]
        simpa [hst] using hge
    | none =>
        simp only [hst]
        rw [List.drop_eq_nil_of_le, List.take_nil]
        rw [List.length_insertionSort]
        simpa [hst] using hge

/-- Two active products matching no optional filter constraints; used with a
page far beyond the end of the result set. -/
def exProds5 : List Product :=
  [{ baseProduct with id := 1 }, { baseProduct with id := 2 }]

/-- Listing request: page 5 of size 20, no filters, no search. -/
def exQ5 : ListingParams :=
  { page := 5, page_size := 20, category_id := none, search := none,
    min_price := none, max_price := none, in_stock := none, created_at := none,
    seller_id := none }

/-- The response on `exProds5`/`exQ5`: empty page, total still 2. -/
def exRes5 : ProductList :=
  { items := [], total := 2, page := 5, page_size := 20 }

theorem listing_total_correct_witness :
    exRes5.total = (exProds5.filter (productFilter (fun _ _ => true) exQ5)).length ∧
    exRes5.items = [] := by
  have h := listing_total_correct exProds5 (fun _ _ => true) (fun _ _ => 0) exQ5
    (by decide) (by decide) (by decide) exRes5 (by decide)
  exact ⟨h.1, h.2.2 (by decide)⟩

/-- C6: the items a listing returns are ordered by the ORDER BY the handler
selected: with a search term present, by rank descending with ascending id
as the tie-break (so equally ranked products appear in ascending-id order);
without one, by ascending id alone. -/
theorem listing_order (dbp : List Product) (m : String → Product → Bool)
    (r : String → Product → ℚ) (q : ListingParams) :
    ∀ res, get_all_products dbp m r q = .ok res →
      (∀ s, searchTerm q = some s → res.items.Pairwise (searchRel (r s))) ∧
      (searchTerm q = none → res.items.Pairwise idAscRel) := by
  intro res hres
  unfold get_all_products at hres
  cases hmm : minMaxInvalid q with
  | true =>
      rw [hmm] at hres
      exact absurd hres (by simp)
  | false =>
      simp only [hmm, Bool.false_eq_true, if_false] at hres
      simp only [Except.ok.injEq] at hres
      subst hres
      constructor
      · intro s hs
        simp only [hs]
        exact List.Pairwise.sublist
          ((List.take_sublist _ _).trans (List.drop_sublist _ _))
          (List.sorted_insertionSort (searchRel (r s)) _)
      · intro hs
        simp only [hs]
        exact List.Pairwise.sublist
          ((List.take_sublist _ _).trans (List.drop_sublist _ _))
          (List.sorted_insertionSort idAscRel _)

/-- Products for the tie-break example: A (id 5) stored before B (id 3); the
example rank function scores every product equally. -/
def exProds6 : List Product :=
  [{ baseProduct with id := 5, name := "alpha" }, { baseProduct with id := 3, name := "beta" }]

/-- Listing request with search term "term". -/
def exQ6 : ListingParams :=
  { page := 1, page_size := 20, category_id := none, search := some "term",
    min_price := none, max_price := none, in_stock := none, created_at := none,
    seller_id := none }

/-- The response on `exProds6`/`exQ6`: equal ranks, so B (id 3) is listed
before A (id 5). -/
def exRes6 : ProductList :=
  { items := [{ baseProduct with id := 3, name := "beta" },
              { baseProduct with id := 5, name := "alpha" }],
    total := 2, page := 1, page_size := 20 }

theorem listing_order_witness :
    exRes6.items.Pairwise (searchRel (fun _ => (0 : ℚ))) ∧
    exRes6.items.map (fun p => p.id) = [3, 5] := by
  have h := (listing_order exProds6 (fun _ _ => true) (fun _ _ => 0) exQ6 exRes6
    (by decide)).1 "term" (by decide)
  exact ⟨h, by decide⟩
